import Mathlib

/-!
Shallow embedding of the openplaud recording-ingestion core:
the Telegram bot long-poll loop (`pollTelegramUpdates` in `src/lib/telegram/bot.ts`),
the polling trigger route (`src/app/api/telegram/poll/route.ts`),
the manual upload endpoint (`src/app/api/recordings/upload/route.ts`),
and the SRT/VTT export formatting (`src/app/api/recordings/export` GET handler).

Dates are modelled as epoch milliseconds (`Int`), byte buffers as `List Nat`,
and JavaScript's falsy-defaulting `x || d` as explicit helpers.
External effects (file download, storage upload, message send, id generation,
clock) are supplied by a `World` record so that failure of any processing step
can be quantified over.
-/

namespace OpenPlaud

/-- JavaScript `x || d` on an optional number: `0` and `undefined` are falsy. -/
def jsOrNat : Option Nat → Nat → Nat
  | some n, d => if n = 0 then d else n
  | none, d => d

/-- JavaScript `x || d` on an optional string: `""` and `undefined` are falsy. -/
def jsOrStr : Option String → String → String
  | some s, d => if s = "" then d else s
  | none, d => d

/-- JavaScript `String.prototype.startsWith`, on character lists. -/
def jsStartsWith (s pre : String) : Bool := pre.data.isPrefixOf s.data

/-- JavaScript `String.prototype.endsWith`, on character lists. -/
def jsEndsWith (s suf : String) : Bool := suf.data.isSuffixOf s.data

/-- JavaScript `String.prototype.toLowerCase` (the filenames compared here
are ASCII, where it agrees with per-character lowering). -/
def jsToLower (s : String) : String := String.mk (s.data.map Char.toLower)

/-- A `voice` sub-object of a Telegram message (interface `TelegramUpdate`). -/
structure TgVoice where
  file_id : String
  duration : Nat
  mime_type : Option String
  file_size : Option Nat
deriving Repr, DecidableEq

/-- An `audio` sub-object of a Telegram message (interface `TelegramUpdate`). -/
structure TgAudio where
  file_id : String
  duration : Nat
  mime_type : Option String
  file_size : Option Nat
  file_name : Option String
deriving Repr, DecidableEq

/-- The `from` sub-object of a Telegram message (the sender). -/
structure TgFrom where
  id : Int
  username : Option String
deriving Repr, DecidableEq

/-- A Telegram `message` object, with the fields the bot reads.
`sender` embeds the `from` field (`from` is a Lean keyword);
`chat_id` embeds `chat.id`; `date` is epoch seconds. -/
structure TgMessage where
  message_id : Nat
  sender : Option TgFrom
  chat_id : Int
  date : Nat
  text : Option String
  voice : Option TgVoice
  audio : Option TgAudio
deriving Repr, DecidableEq

/-- One element of the `getUpdates` result array. -/
structure TelegramUpdate where
  update_id : Nat
  message : Option TgMessage
deriving Repr, DecidableEq

/-- The merged audio payload: `const audio = message.voice || message.audio`.
A voice payload has no `file_name` (the code reads `(audio as any).file_name`,
which is `undefined` for a voice). -/
structure AudioPayload where
  file_id : String
  duration : Nat
  mime_type : Option String
  file_size : Option Nat
  file_name : Option String
deriving Repr, DecidableEq

/-- `message.voice || message.audio` (objects are truthy, so voice wins). -/
def msgAudio (m : TgMessage) : Option AudioPayload :=
  match m.voice with
  | some v => some ⟨v.file_id, v.duration, v.mime_type, v.file_size, none⟩
  | none =>
    match m.audio with
    | some a => some ⟨a.file_id, a.duration, a.mime_type, a.file_size, a.file_name⟩
    | none => none

/-- A row of the `recordings` table as inserted by this codebase. -/
structure Recording where
  id : String
  userId : String
  deviceSn : String
  plaudFileId : String
  filename : String
  duration : Nat
  startTime : Int
  endTime : Int
  filesize : Nat
  fileMd5 : String
  storageType : String
  storagePath : String
  downloadedAt : Int
  plaudVersion : String
deriving Repr, DecidableEq

/-- Does the table already hold a row with this (owning user, source file id) pair? -/
def hasKey (db : List Recording) (uid fid : String) : Bool :=
  db.any fun r => r.userId == uid && r.plaudFileId == fid

/-- Number of rows with the given (owning user, source file id) pair. -/
def countKey (db : List Recording) (uid fid : String) : Nat :=
  (db.filter fun r => r.userId == uid && r.plaudFileId == fid).length

/-- Modelled from the spec: the `recordings` table schema (`src/db/schema.ts`)
is not among the provided sources; per the spec, persistence offers
insert-or-raise-on-conflict semantics keyed on the pair
(owning user, source-system file identifier), i.e. `(userId, plaudFileId)`:
"uniqueness is enforced at the (owning user, source-system file identifier)
level", "enforced by the persistence layer's constraint". An insert that hits
the constraint raises; otherwise the row is appended. -/
def dbInsert (db : List Recording) (r : Recording) : Except String (List Recording) :=
  if hasKey db r.userId r.plaudFileId then
    Except.error "duplicate key value violates unique constraint"
  else
    Except.ok (db ++ [r])

/-- Environment configuration read by the bot loop:
`TELEGRAM_ALLOWED_USERS` (already split and trimmed), `DEFAULT_STORAGE_TYPE`,
and the `users` table contents (the loop targets the first user). -/
structure Env where
  allowedUsers : List String
  defaultStorageType : Option String
  users : List String
deriving Repr

/-- One update's worth of external-world outcomes: the fresh `nanoid()`,
the current clock (`new Date()` for `downloadedAt`), the result of
`downloadFile` (`none` models a thrown error), the result of the storage
provider's `uploadFile` (`none` models a thrown error, `some p` the returned
storage path), and whether `sendMessage` completes without throwing. -/
structure World where
  freshId : String
  now : Int
  download : String → Option (List Nat)
  upload : String → List Nat → String → Option String
  sendOk : Bool

/-- Observable state of one run of the bot loop: the in-memory cursor
`lastUpdateId`, the `recordings` table, the storage keys of blobs written,
and the acknowledgment messages delivered (chat id, text). -/
structure ProcState where
  lastUpdateId : Nat
  dbRecs : List Recording
  storedBlobs : List String
  sent : List (Int × String)
deriving Repr, DecidableEq

/-- The bot's acknowledgment text. -/
def ackText : String := "✅ Recording received and saved to OpenPlaud!"

/-- The body of the `for (const update of result.result)` loop in
`pollTelegramUpdates`: first `lastUpdateId = update.update_id`, then the
message/sender guards, the allow-list check, payload extraction, first-user
resolution, and the inner `try { download; upload; insert; sendMessage }
catch { log }` whose failures are all swallowed. -/
def processUpdate (env : Env) (w : World) (s : ProcState) (u : TelegramUpdate) : ProcState :=
  let s1 := { s with lastUpdateId := u.update_id }
  match u.message with
  | none => s1
  | some message =>
    match message.sender with
    | none => s1
    | some sender =>
      if env.allowedUsers.length > 0 && !(env.allowedUsers.contains (toString sender.id)) then
        s1
      else
        match msgAudio message with
        | none => s1
        | some audio =>
          match env.users.head? with
          | none => s1
          | some targetUserId =>
            match w.download audio.file_id with
            | none => s1
            | some buffer =>
              let recordingId := w.freshId
              let timestamp : Int := (message.date : Int) * 1000
              let filename := jsOrStr audio.file_name ("telegram-" ++ recordingId ++ ".ogg")
              let storageKey :=
                "telegram/" ++ targetUserId ++ "/" ++ toString timestamp ++ "-" ++ filename
              match w.upload storageKey buffer (jsOrStr audio.mime_type "audio/ogg") with
              | none => s1
              | some storagePath =>
                let s2 := { s1 with storedBlobs := s1.storedBlobs ++ [storageKey] }
                let row : Recording :=
                  { id := recordingId
                    userId := targetUserId
                    deviceSn := "TELEGRAM"
                    plaudFileId := "tg-" ++ audio.file_id
                    filename := filename
                    duration := audio.duration * 1000
                    startTime := timestamp
                    endTime := timestamp
                    filesize := jsOrNat audio.file_size buffer.length
                    fileMd5 := ""
                    storageType := jsOrStr env.defaultStorageType "local"
                    storagePath := storagePath
                    downloadedAt := w.now
                    plaudVersion := "1.0.0" }
                match dbInsert s2.dbRecs row with
                | Except.error _ => s2
                | Except.ok db2 =>
                  let s3 := { s2 with dbRecs := db2 }
                  if w.sendOk then
                    { s3 with sent := s3.sent ++ [(message.chat_id, ackText)] }
                  else s3

/-- Processing of one `getUpdates` result array, threading a counter into the
world stream so each update sees its own external outcomes. -/
def processBatch (env : Env) (ws : Nat → World) (k : Nat) (s : ProcState) :
    List TelegramUpdate → ProcState × Nat
  | [] => (s, k)
  | u :: rest => processBatch env ws (k + 1) (processUpdate env (ws k) s u) rest

/-- Processing of a sequence of long-poll responses. -/
def processResponses (env : Env) (ws : Nat → World) :
    Nat → ProcState → List (List TelegramUpdate) → ProcState × Nat
  | k, s, [] => (s, k)
  | k, s, b :: bs =>
    let p := processBatch env ws k s b
    processResponses env ws p.2 p.1 bs

/-- The `offset` the next `getUpdates` call will carry: `lastUpdateId + 1`. -/
def nextOffset (s : ProcState) : Nat := s.lastUpdateId + 1

/-- Outcome of one `tg('getUpdates', ...)` call. `netError` models a rejected
`fetch` or a `response.json()` that throws (non-JSON body); `response ok us`
models a JSON body that parsed, carrying its `ok` flag and `result` array —
note a non-2xx HTTP status with a well-formed JSON body (Telegram's standard
error shape `ok:false`) lands here, since `tg` never inspects the status. -/
inductive GetUpdatesOutcome where
  | netError
  | response (ok : Bool) (updates : List TelegramUpdate)
deriving Repr

/-- One iteration of the `while (true)` body of `pollTelegramUpdates`:
returns the new state, the new world counter, and the delay in milliseconds
awaited before the next iteration (5000 only in the `catch` branch). -/
def loopIter (env : Env) (ws : Nat → World) (k : Nat) (s : ProcState) :
    GetUpdatesOutcome → ProcState × Nat × Nat
  | GetUpdatesOutcome.netError => (s, k, 5000)
  | GetUpdatesOutcome.response ok updates =>
    if ok && !updates.isEmpty then
      let p := processBatch env ws k s updates
      (p.1, p.2, 0)
    else (s, k, 0)

/-- State of the polling trigger route module: the process-wide
`isPollingStarted` flag, plus an instrumentation counter of how many times
`pollTelegramUpdates()` has been invoked. -/
structure PollRouteState where
  isPollingStarted : Bool
  loopsStarted : Nat
deriving Repr, DecidableEq

/-- The GET handler of `src/app/api/telegram/poll/route.ts`. -/
def pollGET (tokenConfigured : Bool) (s : PollRouteState) : PollRouteState × String :=
  if !tokenConfigured then (s, "Telegram bot not configured")
  else if s.isPollingStarted then (s, "Polling already active")
  else ({ isPollingStarted := true, loopsStarted := s.loopsStarted + 1 },
        "Telegram polling started")

/-- A sequence of `n` GET calls to the poll route. -/
def pollGETs (tokenConfigured : Bool) (s : PollRouteState) : Nat → PollRouteState
  | 0 => s
  | n + 1 => pollGETs tokenConfigured (pollGET tokenConfigured s).1 n

/-- The uploaded `File` as the upload route reads it. -/
structure UploadFile where
  name : String
  type : String
  size : Nat
  content : List Nat
deriving Repr, DecidableEq

/-- The extension fallback list of the upload route. -/
def validExtensions : List String := [".mp3", ".wav", ".m4a", ".aac", ".ogg", ".flac"]

/-- The upload route's file-type validation: content type starting with
`audio/`, or (fallback) a case-insensitive valid extension. -/
def isAllowedAudioFile (f : UploadFile) : Bool :=
  jsStartsWith f.type "audio/" ||
    validExtensions.any fun ext => jsEndsWith (jsToLower f.name) ext

/-- Result of one POST to the upload route: HTTP status, error payload (if
any), resulting `recordings` table, blobs written, and the inserted row. -/
structure UploadResult where
  status : Nat
  error : Option String
  db : List Recording
  blobs : List String
  inserted : Option Recording
deriving Repr, DecidableEq

/-- The Recording row the upload route inserts: `plaudFileId` is `manual-`
plus the fresh `nanoid()`, duration is fixed at 0, and start/end times are
the upload timestamp. -/
def manualRow (uid freshId : String) (now : Int) (defaultStorageType : Option String)
    (storagePath : String) (f : UploadFile) : Recording :=
  { id := freshId
    userId := uid
    deviceSn := "MANUAL"
    plaudFileId := "manual-" ++ freshId
    filename := f.name
    duration := 0
    startTime := now
    endTime := now
    filesize := f.size
    fileMd5 := ""
    storageType := jsOrStr defaultStorageType "local"
    storagePath := storagePath
    downloadedAt := now
    plaudVersion := "1.0.0" }

/-- The POST handler of `src/app/api/recordings/upload/route.ts`.
`sessionUser` is the authenticated user id (none models no session),
`freshId` the `nanoid()`, `now` the request timestamp (`new Date()`),
`uploadOutcome` the storage provider's `uploadFile` result (`none` models a
throw, mapped to 500 by the outer catch). -/
def uploadPOST (sessionUser : Option String) (freshId : String) (now : Int)
    (defaultStorageType : Option String) (uploadOutcome : Option String)
    (db : List Recording) (blobs : List String) (file : Option UploadFile) :
    UploadResult :=
  match sessionUser with
  | none => ⟨401, some "Unauthorized", db, blobs, none⟩
  | some uid =>
    match file with
    | none => ⟨400, some "No file uploaded", db, blobs, none⟩
    | some f =>
      if !isAllowedAudioFile f then
        ⟨400, some "Only audio files are allowed", db, blobs, none⟩
      else
        match uploadOutcome with
        | none => ⟨500, some "Failed to upload recording", db, blobs, none⟩
        | some storagePath =>
          let storageKey := "manual/" ++ uid ++ "/" ++ toString now ++ "-" ++ f.name
          let row := manualRow uid freshId now defaultStorageType storagePath f
          match dbInsert db row with
          | Except.error _ =>
            ⟨500, some "Failed to upload recording", db, blobs ++ [storageKey], none⟩
          | Except.ok db2 =>
            ⟨200, none, db2, blobs ++ [storageKey], some row⟩

/-- JavaScript `String.prototype.padStart(w, "0")`. -/
def padStart (w : Nat) (s : String) : String :=
  if s.length < w then String.mk (List.replicate (w - s.length) '0') ++ s else s

/-- Milliseconds into the UTC day of an epoch-millisecond instant. -/
def msOfDay (t : Int) : Nat := (t % 86400000).toNat

/-- `Date.prototype.getUTCHours` on an epoch-millisecond instant. -/
def getUTCHours (t : Int) : Nat := msOfDay t / 3600000

/-- `Date.prototype.getUTCMinutes` on an epoch-millisecond instant. -/
def getUTCMinutes (t : Int) : Nat := msOfDay t % 3600000 / 60000

/-- `Date.prototype.getUTCSeconds` on an epoch-millisecond instant. -/
def getUTCSeconds (t : Int) : Nat := msOfDay t % 60000 / 1000

/-- `Date.prototype.getUTCMilliseconds` on an epoch-millisecond instant. -/
def getUTCMilliseconds (t : Int) : Nat := msOfDay t % 1000

/-- The export route's `formatSRTTime`: `HH:MM:SS,mmm`, each component
`toString().padStart(2, "0")` (3 for milliseconds). -/
def formatSRTTime (t : Int) : String :=
  padStart 2 (toString (getUTCHours t)) ++ ":" ++
  padStart 2 (toString (getUTCMinutes t)) ++ ":" ++
  padStart 2 (toString (getUTCSeconds t)) ++ "," ++
  padStart 3 (toString (getUTCMilliseconds t))

/-- The export route's `formatVTTTime`: `HH:MM:SS.mmm`. -/
def formatVTTTime (t : Int) : String :=
  padStart 2 (toString (getUTCHours t)) ++ ":" ++
  padStart 2 (toString (getUTCMinutes t)) ++ ":" ++
  padStart 2 (toString (getUTCSeconds t)) ++ "." ++
  padStart 3 (toString (getUTCMilliseconds t))

/-- One SRT cue: skipped (empty string) when the transcription text is
missing or empty (`if (!transcription?.text) return ""`); otherwise the cue
number is `index + 1` over the unfiltered recordings list, and the cue spans
`startTime --> startTime + duration`. -/
def srtCue (idx : Nat) (r : Recording) (tx : Option String) : String :=
  match tx with
  | none => ""
  | some text =>
    if text = "" then ""
    else
      toString (idx + 1) ++ "\n" ++
      formatSRTTime r.startTime ++ " --> " ++
      formatSRTTime (r.startTime + (r.duration : Int)) ++ "\n" ++
      text ++ "\n\n"

/-- The per-recording `map((recording, index) => ...)` of the SRT branch. -/
def srtBody : Nat → List (Recording × Option String) → List String
  | _, [] => []
  | i, (r, tx) :: rest => srtCue i r tx :: srtBody (i + 1) rest

/-- The SRT export: map, `filter(Boolean)`, `join("")`. -/
def srtExport (rs : List (Recording × Option String)) : String :=
  String.join ((srtBody 0 rs).filter fun s => s != "")

/-- One VTT cue (no cue number). -/
def vttCue (r : Recording) (tx : Option String) : String :=
  match tx with
  | none => ""
  | some text =>
    if text = "" then ""
    else
      formatVTTTime r.startTime ++ " --> " ++
      formatVTTTime (r.startTime + (r.duration : Int)) ++ "\n" ++
      text ++ "\n\n"

/-- The VTT export: `WEBVTT` header, then map, `filter(Boolean)`, `join("")`. -/
def vttExport (rs : List (Recording × Option String)) : String :=
  "WEBVTT\n\n" ++ String.join ((rs.map fun p => vttCue p.1 p.2).filter fun s => s != "")

/-- An epoch-millisecond instant built from UTC day count and time-of-day
components. -/
def mkUTC (day h m s ms : Nat) : Int :=
  ((day * 86400000 + h * 3600000 + m * 60000 + s * 1000 + ms : Nat) : Int)

/-! Helper lemmas shared by the claim theorems. -/

/-- Prepending the same string on the left is injective. -/
theorem string_append_cancel_left {s a b : String} (h : s ++ a = s ++ b) : a = b := by
  have hd : s.data ++ a.data = s.data ++ b.data := congrArg String.data h
  exact congrArg String.mk (List.append_cancel_left hd)

/-- The loop body assigns `lastUpdateId = update.update_id` before anything
else; every subsequent branch leaves the cursor untouched. -/
theorem processUpdate_lastUpdateId (env : Env) (w : World) (s : ProcState)
    (u : TelegramUpdate) :
    (processUpdate env w s u).lastUpdateId = u.update_id := by
  unfold processUpdate
  simp only []
  repeat' split
  all_goals rfl

/-- The cursor after one batch is the id of its last update (or the previous
cursor for an empty batch), for every outcome of the external world. -/
theorem processBatch_lastUpdateId (env : Env) (ws : Nat → World)
    (us : List TelegramUpdate) : ∀ (k : Nat) (s : ProcState),
    (processBatch env ws k s us).1.lastUpdateId =
      us.foldl (fun _ u => u.update_id) s.lastUpdateId := by
  induction us with
  | nil => intro k s; rfl
  | cons u rest ih =>
    intro k s
    show (processBatch env ws (k + 1) (processUpdate env (ws k) s u) rest).1.lastUpdateId = _
    rw [ih, List.foldl_cons, processUpdate_lastUpdateId]

/-- The cursor after a sequence of responses is the id of the last update of
the concatenated sequence (or the initial cursor if none). -/
theorem processResponses_lastUpdateId (env : Env) (ws : Nat → World)
    (bs : List (List TelegramUpdate)) : ∀ (k : Nat) (s : ProcState),
    (processResponses env ws k s bs).1.lastUpdateId =
      bs.flatten.foldl (fun _ u => u.update_id) s.lastUpdateId := by
  induction bs with
  | nil => intro k s; rfl
  | cons b bs ih =>
    intro k s
    show (processResponses env ws _ (processBatch env ws k s b).1 bs).1.lastUpdateId = _
    rw [ih, List.flatten_cons, List.foldl_append, processBatch_lastUpdateId]

/-- On a strictly ascending list, taking the last element and folding with
`max` agree. -/
theorem foldl_last_eq_foldl_max : ∀ (l : List Nat) (c : Nat),
    (c :: l).Pairwise (· < ·) →
    l.foldl (fun _ x => x) c = l.foldl max c := by
  intro l
  induction l with
  | nil => intro c _; rfl
  | cons x xs ih =>
    intro c hp
    have h1 : c < x := (List.pairwise_cons.mp hp).1 x (by simp)
    have h2 : (x :: xs).Pairwise (· < ·) :=
      List.Pairwise.sublist (List.sublist_cons_self c (x :: xs)) hp
    rw [List.foldl_cons, List.foldl_cons, max_eq_right h1.le]
    exact ih x h2

/-- If a key is absent, no row matches it. -/
theorem countKey_eq_zero {db : List Recording} {uid fid : String}
    (h : hasKey db uid fid = false) : countKey db uid fid = 0 := by
  unfold hasKey at h
  unfold countKey
  rw [List.length_eq_zero, List.filter_eq_nil_iff]
  simp only [List.any_eq_false] at h
  intro r hr
  simpa using h r hr

/-- Key membership after appending one row. -/
theorem hasKey_append_singleton (db : List Recording) (r : Recording)
    (uid fid : String) :
    hasKey (db ++ [r]) uid fid =
      (hasKey db uid fid || (r.userId == uid && r.plaudFileId == fid)) := by
  simp [hasKey]

/-- Row count after appending one row. -/
theorem countKey_append_singleton (db : List Recording) (r : Recording)
    (uid fid : String) :
    countKey (db ++ [r]) uid fid =
      countKey db uid fid +
        (if (r.userId == uid && r.plaudFileId == fid) = true then 1 else 0) := by
  simp only [countKey, List.filter_append]
  rw [List.length_append]
  congr 1
  by_cases hc : (r.userId == uid && r.plaudFileId == fid) = true <;> simp [hc]

/-- Behavior of one loop-body pass over an accepted audio message whose
download and upload succeed: a fresh (user, source-file-id) key inserts
exactly one row with the payload's metadata; an already-present key leaves
the table unchanged (the constraint violation is caught and swallowed). -/
theorem processUpdate_insert (env : Env) (w : World) (s : ProcState)
    (u : TelegramUpdate) (msg : TgMessage) (sender : TgFrom) (p : AudioPayload)
    (uid : String) (buf : List Nat)
    (hm : u.message = some msg) (hf : msg.sender = some sender)
    (hallow : (decide (0 < env.allowedUsers.length) &&
      !(env.allowedUsers.contains (toString sender.id))) = false)
    (hp : msgAudio msg = some p)
    (hu : env.users.head? = some uid)
    (hd : w.download p.file_id = some buf)
    (hup : ∀ key b ct, (w.upload key b ct).isSome = true) :
    (hasKey s.dbRecs uid ("tg-" ++ p.file_id) = false →
      ∃ row : Recording,
        (processUpdate env w s u).dbRecs = s.dbRecs ++ [row] ∧
        row.userId = uid ∧ row.plaudFileId = "tg-" ++ p.file_id ∧
        row.duration = p.duration * 1000 ∧
        row.startTime = (msg.date : Int) * 1000 ∧
        row.endTime = (msg.date : Int) * 1000) ∧
    (hasKey s.dbRecs uid ("tg-" ++ p.file_id) = true →
      (processUpdate env w s u).dbRecs = s.dbRecs) := by
  obtain ⟨path, hpath⟩ := Option.isSome_iff_exists.mp
    (hup ("telegram/" ++ uid ++ "/" ++ toString ((msg.date : Int) * 1000) ++ "-" ++
      jsOrStr p.file_name ("telegram-" ++ w.freshId ++ ".ogg")) buf
      (jsOrStr p.mime_type "audio/ogg"))
  unfold processUpdate
  simp only [hm, hf, hallow, hp, hu, hd, hpath, Bool.false_eq_true, if_false, dbInsert]
  constructor
  · intro hk
    simp only [hk, Bool.false_eq_true, if_false]
    by_cases hsend : w.sendOk = true <;> simp [hsend]
  · intro hk
    simp only [hk, if_true]

/-- Once the started flag is set, further GET calls never change the state. -/
theorem pollGETs_started : ∀ (m : Nat) (s : PollRouteState),
    s.isPollingStarted = true → pollGETs true s m = s := by
  intro m
  induction m with
  | zero => intro s _; rfl
  | succ k ih =>
    intro s hs
    show pollGETs true (pollGET true s).1 k = s
    have hfix : (pollGET true s).1 = s := by simp [pollGET, hs]
    rw [hfix]
    exact ih s hs

/-! Concrete sample inputs used by the witness theorems. -/

/-- A world in which every external step succeeds. -/
def sampleWorld : World :=
  { freshId := "rec1", now := 0,
    download := fun _ => some [1, 2, 3],
    upload := fun key _ _ => some key,
    sendOk := true }

/-- A world in which the binary download fails (processing throws). -/
def sampleWorldFail : World :=
  { freshId := "rec1", now := 0,
    download := fun _ => none,
    upload := fun _ _ _ => none,
    sendOk := false }

/-- An environment with no allow-list and one catalog user. -/
def sampleEnv : Env := { allowedUsers := [], defaultStorageType := none, users := ["u1"] }

/-- The bot loop's state at process start. -/
def emptyState : ProcState := ⟨0, [], [], []⟩

/-- A 12-second voice message from sender 7 in chat 99. -/
def msgVoiceC : TgMessage :=
  { message_id := 10, sender := some ⟨7, none⟩, chat_id := 99, date := 1700000000,
    text := none, voice := some ⟨"FID1", 12, none, some 111⟩, audio := none }

/-- A recording starting at 01:02:03.004 UTC on the epoch day, 12 s long. -/
def sampleRec : Recording :=
  { id := "r1", userId := "u1", deviceSn := "TELEGRAM", plaudFileId := "tg-F",
    filename := "f.ogg", duration := 12000, startTime := mkUTC 0 1 2 3 4,
    endTime := mkUTC 0 1 2 3 4, filesize := 5, fileMd5 := "",
    storageType := "local", storagePath := "p", downloadedAt := 0,
    plaudVersion := "1.0.0" }

/-! The claim theorems. -/

/-- C1: for every sequence of long-poll responses (each response's updates
strictly ascending and above the cursor at request time, per the `offset`
contract of `getUpdates`), the cursor after processing equals the maximum
update_id seen, for every outcome of the per-update external world (i.e.
even when the processing of individual updates fails); moreover the cursor
is advanced to each update's id unconditionally, before any attempt to
process its payload, as witnessed by the cursor equation holding for every
world and every update. -/
theorem c1_cursor_forward_progress (env : Env) (ws : Nat → World) (k : Nat)
    (s : ProcState) (bs : List (List TelegramUpdate))
    (env2 : Env) (w2 : World) (s2 : ProcState) (u2 : TelegramUpdate)
    (hsorted : (s.lastUpdateId ::
      bs.flatten.map TelegramUpdate.update_id).Pairwise (· < ·)) :
    (processResponses env ws k s bs).1.lastUpdateId =
      (bs.flatten.map TelegramUpdate.update_id).foldl max s.lastUpdateId ∧
    (processUpdate env2 w2 s2 u2).lastUpdateId = u2.update_id := by
  constructor
  · rw [processResponses_lastUpdateId]
    rw [← List.foldl_map (f := TelegramUpdate.update_id)
      (g := fun (_ x : Nat) => x)]
    exact foldl_last_eq_foldl_max _ _ hsorted
  · exact processUpdate_lastUpdateId env2 w2 s2 u2

/-- C1 witness: two responses with ids 3 then 5 and 8, the first processed
with every external step failing, drive the cursor to 8. -/
theorem c1_cursor_forward_progress_witness :
    (((0 : Nat) :: ([[⟨3, some msgVoiceC⟩],
        [⟨5, some msgVoiceC⟩, ⟨8, none⟩]] :
        List (List TelegramUpdate)).flatten.map
        TelegramUpdate.update_id).Pairwise (· < ·)) ∧
    (processResponses sampleEnv (fun _ => sampleWorldFail) 0 emptyState
        [[⟨3, some msgVoiceC⟩], [⟨5, some msgVoiceC⟩, ⟨8, none⟩]]).1.lastUpdateId =
      (([[⟨3, some msgVoiceC⟩], [⟨5, some msgVoiceC⟩, ⟨8, none⟩]] :
        List (List TelegramUpdate)).flatten.map
        TelegramUpdate.update_id).foldl max 0 :=
  ⟨by decide, (c1_cursor_forward_progress sampleEnv (fun _ => sampleWorldFail) 0
    emptyState [[⟨3, some msgVoiceC⟩], [⟨5, some msgVoiceC⟩, ⟨8, none⟩]]
    sampleEnv sampleWorldFail emptyState ⟨1, none⟩ (by decide)).1⟩

/-- C3 counterexample: a non-2xx HTTP response from `getUpdates` whose body
is well-formed JSON (Telegram's standard error shape carries `ok:false`)
does not make the loop wait the 5-second backoff delay: `tg` never inspects
the HTTP status, `response.json()` succeeds, `result.ok` is false, and the
iteration ends with no delay — contradicting the claim that every non-2xx
long-poll response enters the backoff wait. -/
theorem c3_counterexample :
    (loopIter sampleEnv (fun _ => sampleWorld) 0 emptyState
      (GetUpdatesOutcome.response false [])).2.2 ≠ 5000 := by
  decide

/-- C3 (amended): for every transport failure that surfaces as a thrown
error of the long-poll call — a network error, or a non-2xx response whose
body fails to parse as JSON — the loop keeps its state, waits the fixed
5000 ms delay, and returns to polling; the iteration step is total, so the
loop never terminates on such a failure. A non-2xx response whose body
parses as JSON with `ok:false` is instead skipped with no delay. -/
theorem c3_transport_failure_backoff (env : Env) (ws : Nat → World) (k : Nat)
    (s : ProcState) :
    loopIter env ws k s GetUpdatesOutcome.netError = (s, k, 5000) := rfl

/-- C4: when a non-empty allow-list is configured and the sender's id is not
on it, the update is discarded: no Recording row is created, no blob is
stored, no acknowledgment is sent, only the cursor advances, and the loop
continues with the next update. -/
theorem c4_unauthorized_discarded (env : Env) (w : World) (s : ProcState)
    (u : TelegramUpdate) (msg : TgMessage) (sender : TgFrom)
    (hm : u.message = some msg) (hf : msg.sender = some sender)
    (hne : env.allowedUsers ≠ [])
    (hout : env.allowedUsers.contains (toString sender.id) = false) :
    processUpdate env w s u = { s with lastUpdateId := u.update_id } ∧
    (processUpdate env w s u).dbRecs = s.dbRecs ∧
    (processUpdate env w s u).storedBlobs = s.storedBlobs ∧
    (processUpdate env w s u).sent = s.sent ∧
    (∀ (ws : Nat → World) (k : Nat) (rest : List TelegramUpdate),
      processBatch env ws k s (u :: rest) =
        processBatch env ws (k + 1) { s with lastUpdateId := u.update_id } rest) := by
  have hcond : (decide (0 < env.allowedUsers.length) &&
      !(env.allowedUsers.contains (toString sender.id))) = true := by
    rw [hout]
    simp [List.length_pos.mpr hne]
  have hmain : ∀ w' : World, processUpdate env w' s u =
      { s with lastUpdateId := u.update_id } := by
    intro w'
    unfold processUpdate
    simp only [hm, hf, hcond, if_true]
  refine ⟨hmain w, by rw [hmain w], by rw [hmain w], by rw [hmain w], ?_⟩
  intro ws k rest
  show processBatch env ws (k + 1) (processUpdate env (ws k) s u) rest = _
  rw [hmain (ws k)]

/-- C4 witness: with allow-list ["42"], a voice message from sender 7 is
discarded with only the cursor advanced. -/
theorem c4_unauthorized_discarded_witness :
    (⟨5, some msgVoiceC⟩ : TelegramUpdate).message = some msgVoiceC ∧
    msgVoiceC.sender = some ⟨7, none⟩ ∧
    (["42"] : List String) ≠ [] ∧
    (["42"] : List String).contains (toString (7 : Int)) = false ∧
    processUpdate ⟨["42"], none, ["u1"]⟩ sampleWorld emptyState ⟨5, some msgVoiceC⟩ =
      { emptyState with lastUpdateId := 5 } :=
  ⟨rfl, rfl, by decide, by decide,
    (c4_unauthorized_discarded ⟨["42"], none, ["u1"]⟩ sampleWorld emptyState
      ⟨5, some msgVoiceC⟩ msgVoiceC ⟨7, none⟩ rfl rfl (by decide) (by decide)).1⟩

/-- C10: an update lacking a message object or lacking a sender is skipped
without creating a Recording, storing a blob, or sending a reply, yet the
cursor is advanced to its update_id, so the next `getUpdates` offset
(`lastUpdateId + 1`) lies strictly beyond it and the update is never
re-fetched. -/
theorem c10_malformed_update_skipped (env : Env) (w : World) (s : ProcState)
    (u : TelegramUpdate)
    (h : u.message = none ∨ ∃ msg, u.message = some msg ∧ msg.sender = none) :
    processUpdate env w s u = { s with lastUpdateId := u.update_id } ∧
    (processUpdate env w s u).dbRecs = s.dbRecs ∧
    (processUpdate env w s u).storedBlobs = s.storedBlobs ∧
    (processUpdate env w s u).sent = s.sent ∧
    nextOffset (processUpdate env w s u) = u.update_id + 1 ∧
    u.update_id < nextOffset (processUpdate env w s u) := by
  have hmain : processUpdate env w s u = { s with lastUpdateId := u.update_id } := by
    unfold processUpdate
    rcases h with h | ⟨msg, hm, hf⟩
    · simp only [h]
    · simp only [hm, hf]
  refine ⟨hmain, by rw [hmain], by rw [hmain], by rw [hmain], ?_, ?_⟩ <;>
    rw [hmain] <;> simp [nextOffset]

/-- C10 witness: an update with no message is skipped and the next offset
moves past it. -/
theorem c10_malformed_update_skipped_witness :
    ((⟨9, none⟩ : TelegramUpdate).message = none ∨
      ∃ msg, (⟨9, none⟩ : TelegramUpdate).message = some msg ∧
        msg.sender = none) ∧
    processUpdate sampleEnv sampleWorld emptyState ⟨9, none⟩ =
      { emptyState with lastUpdateId := 9 } :=
  ⟨Or.inl rfl,
    (c10_malformed_update_skipped sampleEnv sampleWorld emptyState ⟨9, none⟩
      (Or.inl rfl)).1⟩

/-- C7: the polling trigger is idempotent within a process: starting from
the fresh module state, after any positive number of GET calls with the bot
token configured exactly one polling loop has been started, never more than
one loop is started over any number of calls, and once the started flag is
set every further call returns the "Polling already active" status and
leaves the state unchanged. -/
theorem c7_poll_trigger_idempotent (n : Nat) (hn : 1 ≤ n) :
    (pollGETs true ⟨false, 0⟩ n).loopsStarted = 1 ∧
    (pollGETs true ⟨false, 0⟩ n).isPollingStarted = true ∧
    (∀ m : Nat, (pollGETs true ⟨false, 0⟩ m).loopsStarted ≤ 1) ∧
    (∀ s : PollRouteState, s.isPollingStarted = true →
      pollGET true s = (s, "Polling already active")) := by
  obtain ⟨m, rfl⟩ : ∃ m, n = m + 1 := ⟨n - 1, by omega⟩
  have hstep : (pollGET true ⟨false, 0⟩).1 = ⟨true, 1⟩ := rfl
  have hrun : ∀ k : Nat, pollGETs true ⟨false, 0⟩ (k + 1) = ⟨true, 1⟩ := by
    intro k
    show pollGETs true (pollGET true ⟨false, 0⟩).1 k = _
    rw [hstep]
    exact pollGETs_started k ⟨true, 1⟩ rfl
  refine ⟨by rw [hrun m], by rw [hrun m], ?_, ?_⟩
  · intro m'
    cases m' with
    | zero => simp [pollGETs]
    | succ k => rw [hrun k]
  · intro s hs
    simp [pollGET, hs]

/-- C7 witness: three GET calls with the token configured start exactly one
loop. -/
theorem c7_poll_trigger_idempotent_witness :
    1 ≤ 3 ∧ (pollGETs true ⟨false, 0⟩ 3).loopsStarted = 1 :=
  ⟨by decide, (c7_poll_trigger_idempotent 3 (by decide)).1⟩

/-- C9: an upload whose content type does not start with "audio/" and whose
lowercased filename ends in none of the accepted extensions is rejected
with HTTP 400 and an error payload, writing no blob and inserting no
Recording row. -/
theorem c9_upload_rejects_nonaudio (uid freshId : String) (now : Int)
    (dst uploadOutcome : Option String) (db : List Recording)
    (blobs : List String) (f : UploadFile)
    (h1 : jsStartsWith f.type "audio/" = false)
    (h2 : (validExtensions.any fun ext => jsEndsWith (jsToLower f.name) ext) = false) :
    uploadPOST (some uid) freshId now dst uploadOutcome db blobs (some f) =
      ⟨400, some "Only audio files are allowed", db, blobs, none⟩ := by
  unfold uploadPOST
  simp [isAllowedAudioFile, h1, h2]

/-- C9 witness: a text file named notes.TXT is rejected with 400 and the
state is unchanged. -/
theorem c9_upload_rejects_nonaudio_witness :
    (jsStartsWith "text/plain" "audio/" = false) ∧
    ((validExtensions.any fun ext => jsEndsWith (jsToLower "notes.TXT") ext) = false) ∧
    uploadPOST (some "u1") "id1" 0 none (some "p") [] []
        (some ⟨"notes.TXT", "text/plain", 3, [1, 2, 3]⟩) =
      ⟨400, some "Only audio files are allowed", [], [], none⟩ :=
  ⟨by decide, by decide,
    c9_upload_rejects_nonaudio "u1" "id1" 0 none (some "p") [] []
      ⟨"notes.TXT", "text/plain", 3, [1, 2, 3]⟩ (by decide) (by decide)⟩

/-- C5: an accepted voice message of duration d seconds received at epoch
second T produces a Recording with duration d * 1000 milliseconds and
startTime == endTime == T * 1000 (the Date built from T). -/
theorem c5_voice_duration_and_times (env : Env) (w : World) (s : ProcState)
    (u : TelegramUpdate) (msg : TgMessage) (sender : TgFrom) (v : TgVoice)
    (uid : String) (buf : List Nat)
    (hm : u.message = some msg) (hf : msg.sender = some sender)
    (hallow : (decide (0 < env.allowedUsers.length) &&
      !(env.allowedUsers.contains (toString sender.id))) = false)
    (hv : msg.voice = some v)
    (hu : env.users.head? = some uid)
    (hd : w.download v.file_id = some buf)
    (hup : ∀ key b ct, (w.upload key b ct).isSome = true)
    (hk : hasKey s.dbRecs uid ("tg-" ++ v.file_id) = false) :
    ∃ row : Recording,
      (processUpdate env w s u).dbRecs = s.dbRecs ++ [row] ∧
      row.duration = v.duration * 1000 ∧
      row.startTime = (msg.date : Int) * 1000 ∧
      row.endTime = (msg.date : Int) * 1000 := by
  have hp : msgAudio msg =
      some ⟨v.file_id, v.duration, v.mime_type, v.file_size, none⟩ := by
    unfold msgAudio
    rw [hv]
  obtain ⟨row, h1, _, _, h4, h5, h6⟩ :=
    (processUpdate_insert env w s u msg sender _ uid buf
      hm hf hallow hp hu hd hup).1 hk
  exact ⟨row, h1, h4, h5, h6⟩

/-- C5 witness: a 12-second voice message received at epoch second
1700000000 yields a row with duration 12000 ms and equal start and end
times 1700000000000 ms. -/
theorem c5_voice_duration_and_times_witness :
    msgVoiceC.voice = some ⟨"FID1", 12, none, some 111⟩ ∧
    hasKey emptyState.dbRecs "u1" ("tg-" ++ "FID1") = false ∧
    (∃ row : Recording,
      (processUpdate sampleEnv sampleWorld emptyState
          ⟨5, some msgVoiceC⟩).dbRecs = emptyState.dbRecs ++ [row] ∧
      row.duration = 12 * 1000 ∧
      row.startTime = ((1700000000 : Nat) : Int) * 1000 ∧
      row.endTime = ((1700000000 : Nat) : Int) * 1000) :=
  ⟨rfl, by decide,
    c5_voice_duration_and_times sampleEnv sampleWorld emptyState
      ⟨5, some msgVoiceC⟩ msgVoiceC ⟨7, none⟩ ⟨"FID1", 12, none, some 111⟩
      "u1" [1, 2, 3] rfl rfl (by decide) rfl rfl rfl
      (fun _ _ _ => rfl) (by decide)⟩

/-- C2: importing the same source file twice for the same user — a
re-delivered update carrying the same file_id, hence the same synthesized
plaudFileId `tg-` + file_id — leaves at most one Recording row: the first
pass inserts it, the second pass's insert hits the uniqueness constraint,
which is caught and swallowed (the table is unchanged, the loop carries on
and advances the cursor) rather than surfaced as an error. -/
theorem c2_duplicate_import_noop (env : Env) (ws : Nat → World) (s : ProcState)
    (u1 u2 : TelegramUpdate) (m1 m2 : TgMessage) (f1 f2 : TgFrom)
    (p1 p2 : AudioPayload) (uid fid : String) (b1 b2 : List Nat)
    (hm1 : u1.message = some m1) (hf1 : m1.sender = some f1)
    (ha1 : (decide (0 < env.allowedUsers.length) &&
      !(env.allowedUsers.contains (toString f1.id))) = false)
    (hp1 : msgAudio m1 = some p1) (hfid1 : p1.file_id = fid)
    (hm2 : u2.message = some m2) (hf2 : m2.sender = some f2)
    (ha2 : (decide (0 < env.allowedUsers.length) &&
      !(env.allowedUsers.contains (toString f2.id))) = false)
    (hp2 : msgAudio m2 = some p2) (hfid2 : p2.file_id = fid)
    (hu : env.users.head? = some uid)
    (hd1 : (ws 0).download p1.file_id = some b1)
    (hd2 : (ws 1).download p2.file_id = some b2)
    (hup1 : ∀ key b ct, ((ws 0).upload key b ct).isSome = true)
    (hup2 : ∀ key b ct, ((ws 1).upload key b ct).isSome = true)
    (hk : hasKey s.dbRecs uid ("tg-" ++ fid) = false) :
    countKey (processBatch env ws 0 s [u1, u2]).1.dbRecs uid ("tg-" ++ fid) = 1 ∧
    (processBatch env ws 0 s [u1, u2]).1.dbRecs =
      (processUpdate env (ws 0) s u1).dbRecs ∧
    (processBatch env ws 0 s [u1, u2]).1.lastUpdateId = u2.update_id := by
  subst hfid1
  obtain ⟨row, hdb1, hru, hrf, _, _, _⟩ :=
    (processUpdate_insert env (ws 0) s u1 m1 f1 p1 uid b1
      hm1 hf1 ha1 hp1 hu hd1 hup1).1 hk
  have hrowkey : (row.userId == uid && row.plaudFileId == "tg-" ++ p1.file_id) = true := by
    rw [hru, hrf]
    simp
  have hkey1 : hasKey (processUpdate env (ws 0) s u1).dbRecs uid
      ("tg-" ++ p1.file_id) = true := by
    rw [hdb1, hasKey_append_singleton, hrowkey]
    simp
  have hins2 := (processUpdate_insert env (ws 1)
    (processUpdate env (ws 0) s u1) u2 m2 f2 p2 uid b2
    hm2 hf2 ha2 hp2 hu hd2 hup2).2 (by rw [hfid2]; exact hkey1)
  have hbatch : (processBatch env ws 0 s [u1, u2]).1 =
      processUpdate env (ws 1) (processUpdate env (ws 0) s u1) u2 := rfl
  refine ⟨?_, ?_, ?_⟩
  · rw [hbatch, hins2, hdb1, countKey_append_singleton, countKey_eq_zero hk,
      hrowkey]
    simp
  · rw [hbatch, hins2]
  · rw [hbatch, processUpdate_lastUpdateId]

/-- C2 witness: the same voice file re-delivered in updates 5 and 6 yields
exactly one row keyed (u1, tg-FID1), and the second pass changes nothing. -/
theorem c2_duplicate_import_noop_witness :
    hasKey emptyState.dbRecs "u1" ("tg-" ++ "FID1") = false ∧
    countKey (processBatch sampleEnv (fun _ => sampleWorld) 0 emptyState
        [⟨5, some msgVoiceC⟩, ⟨6, some msgVoiceC⟩]).1.dbRecs
      "u1" ("tg-" ++ "FID1") = 1 ∧
    (processBatch sampleEnv (fun _ => sampleWorld) 0 emptyState
        [⟨5, some msgVoiceC⟩, ⟨6, some msgVoiceC⟩]).1.dbRecs =
      (processUpdate sampleEnv sampleWorld emptyState
        ⟨5, some msgVoiceC⟩).dbRecs :=
  ⟨by decide,
    (c2_duplicate_import_noop sampleEnv (fun _ => sampleWorld) emptyState
      ⟨5, some msgVoiceC⟩ ⟨6, some msgVoiceC⟩ msgVoiceC msgVoiceC
      ⟨7, none⟩ ⟨7, none⟩ ⟨"FID1", 12, none, some 111, none⟩
      ⟨"FID1", 12, none, some 111, none⟩ "u1" "FID1" [1, 2, 3] [1, 2, 3]
      rfl rfl (by decide) rfl rfl rfl rfl (by decide) rfl rfl rfl rfl rfl
      (fun _ _ _ => rfl) (fun _ _ _ => rfl) (by decide)).1,
    (c2_duplicate_import_noop sampleEnv (fun _ => sampleWorld) emptyState
      ⟨5, some msgVoiceC⟩ ⟨6, some msgVoiceC⟩ msgVoiceC msgVoiceC
      ⟨7, none⟩ ⟨7, none⟩ ⟨"FID1", 12, none, some 111, none⟩
      ⟨"FID1", 12, none, some 111, none⟩ "u1" "FID1" [1, 2, 3] [1, 2, 3]
      rfl rfl (by decide) rfl rfl rfl rfl (by decide) rfl rfl rfl rfl rfl
      (fun _ _ _ => rfl) (fun _ _ _ => rfl) (by decide)).2.1⟩

/-- The upload route's success path: authenticated, valid audio file,
storage upload succeeded, and no conflicting (user, manual id) row. -/
theorem uploadPOST_success (uid freshId : String) (now : Int)
    (dst : Option String) (path : String) (db : List Recording)
    (blobs : List String) (f : UploadFile)
    (hok : isAllowedAudioFile f = true)
    (hk : hasKey db uid ("manual-" ++ freshId) = false) :
    uploadPOST (some uid) freshId now dst (some path) db blobs (some f) =
      ⟨200, none, db ++ [manualRow uid freshId now dst path f],
        blobs ++ ["manual/" ++ uid ++ "/" ++ toString now ++ "-" ++ f.name],
        some (manualRow uid freshId now dst path f)⟩ := by
  unfold uploadPOST
  simp only [hok, Bool.not_true, Bool.false_eq_true, if_false, dbInsert]
  have hkey : hasKey db (manualRow uid freshId now dst path f).userId
      (manualRow uid freshId now dst path f).plaudFileId = false := hk
  simp only [hkey, Bool.false_eq_true, if_false]

/-- C8: manual uploads are never deduplicated: every successful POST inserts
a row whose plaudFileId is `manual-` plus a fresh random id, with duration 0
and startTime == endTime == the upload timestamp; two uploads of
byte-identical files by the same user (with distinct fresh ids, as nanoid
produces) insert two distinct rows. -/
theorem c8_manual_upload_no_dedup (uid id1 id2 p1 p2 : String)
    (now1 now2 : Int) (dst : Option String) (f : UploadFile)
    (db : List Recording) (blobs blobs2 : List String)
    (hok : isAllowedAudioFile f = true)
    (hid : id1 ≠ id2)
    (hk1 : hasKey db uid ("manual-" ++ id1) = false)
    (hk2 : hasKey db uid ("manual-" ++ id2) = false) :
    ∃ r1 r2 : Recording,
      (uploadPOST (some uid) id1 now1 dst (some p1) db blobs (some f)).status = 200 ∧
      (uploadPOST (some uid) id1 now1 dst (some p1) db blobs (some f)).db =
        db ++ [r1] ∧
      (uploadPOST (some uid) id2 now2 dst (some p2) (db ++ [r1]) blobs2
        (some f)).status = 200 ∧
      (uploadPOST (some uid) id2 now2 dst (some p2) (db ++ [r1]) blobs2
        (some f)).db = db ++ [r1] ++ [r2] ∧
      r1.plaudFileId = "manual-" ++ id1 ∧ r2.plaudFileId = "manual-" ++ id2 ∧
      r1.duration = 0 ∧ r2.duration = 0 ∧
      r1.startTime = now1 ∧ r1.endTime = now1 ∧
      r2.startTime = now2 ∧ r2.endTime = now2 ∧
      r1 ≠ r2 := by
  have hne : ("manual-" ++ id1 == "manual-" ++ id2) = false := by
    rw [beq_eq_false_iff_ne]
    intro h
    exact hid (string_append_cancel_left h)
  have h1 := uploadPOST_success uid id1 now1 dst p1 db blobs f hok hk1
  have hkey2 : hasKey (db ++ [manualRow uid id1 now1 dst p1 f]) uid
      ("manual-" ++ id2) = false := by
    rw [hasKey_append_singleton, hk2]
    have : ((manualRow uid id1 now1 dst p1 f).userId == uid &&
        (manualRow uid id1 now1 dst p1 f).plaudFileId == "manual-" ++ id2) = false := by
      show (uid == uid && ("manual-" ++ id1 == "manual-" ++ id2)) = false
      rw [hne]
      simp
    rw [this]
    rfl
  have h2 := uploadPOST_success uid id2 now2 dst p2
    (db ++ [manualRow uid id1 now1 dst p1 f]) blobs2 f hok hkey2
  refine ⟨manualRow uid id1 now1 dst p1 f, manualRow uid id2 now2 dst p2 f,
    by rw [h1], by rw [h1], by rw [h2], by rw [h2], rfl, rfl, rfl, rfl,
    rfl, rfl, rfl, rfl, ?_⟩
  intro h
  exact hid (congrArg Recording.id h)

/-- C8 witness: two uploads of the same mp3 by the same user with fresh ids
A and B insert two distinct rows. -/
theorem c8_manual_upload_no_dedup_witness :
    isAllowedAudioFile ⟨"a.mp3", "audio/mpeg", 4, [0, 1, 2, 3]⟩ = true ∧
    ("A" : String) ≠ "B" ∧
    (∃ r1 r2 : Recording,
      (uploadPOST (some "u1") "A" 10 none (some "pa") [] []
        (some ⟨"a.mp3", "audio/mpeg", 4, [0, 1, 2, 3]⟩)).status = 200 ∧
      (uploadPOST (some "u1") "A" 10 none (some "pa") [] []
        (some ⟨"a.mp3", "audio/mpeg", 4, [0, 1, 2, 3]⟩)).db = [] ++ [r1] ∧
      (uploadPOST (some "u1") "B" 20 none (some "pb") ([] ++ [r1]) []
        (some ⟨"a.mp3", "audio/mpeg", 4, [0, 1, 2, 3]⟩)).status = 200 ∧
      (uploadPOST (some "u1") "B" 20 none (some "pb") ([] ++ [r1]) []
        (some ⟨"a.mp3", "audio/mpeg", 4, [0, 1, 2, 3]⟩)).db = [] ++ [r1] ++ [r2] ∧
      r1.plaudFileId = "manual-" ++ "A" ∧ r2.plaudFileId = "manual-" ++ "B" ∧
      r1.duration = 0 ∧ r2.duration = 0 ∧
      r1.startTime = 10 ∧ r1.endTime = 10 ∧
      r2.startTime = 20 ∧ r2.endTime = 20 ∧
      r1 ≠ r2) :=
  ⟨by decide, by decide,
    c8_manual_upload_no_dedup "u1" "A" "B" "pa" "pb" 10 20 none
      ⟨"a.mp3", "audio/mpeg", 4, [0, 1, 2, 3]⟩ [] [] []
      (by decide) (by decide) (by decide) (by decide)⟩

/-- Milliseconds into the day of an instant built from components. -/
theorem msOfDay_mkUTC (day h m s ms : Nat) (hh : h < 24) (hm : m < 60)
    (hs : s < 60) (hms : ms < 1000) :
    msOfDay (mkUTC day h m s ms) = h * 3600000 + m * 60000 + s * 1000 + ms := by
  unfold msOfDay mkUTC
  omega

/-- The four UTC getters recover the components of a built instant. -/
theorem getUTC_fields_mkUTC (day h m s ms : Nat) (hh : h < 24) (hm : m < 60)
    (hs : s < 60) (hms : ms < 1000) :
    getUTCHours (mkUTC day h m s ms) = h ∧
    getUTCMinutes (mkUTC day h m s ms) = m ∧
    getUTCSeconds (mkUTC day h m s ms) = s ∧
    getUTCMilliseconds (mkUTC day h m s ms) = ms := by
  unfold getUTCHours getUTCMinutes getUTCSeconds getUTCMilliseconds
  rw [msOfDay_mkUTC day h m s ms hh hm hs hms]
  refine ⟨?_, ?_, ?_, ?_⟩ <;> omega

/-- The SRT formatter renders a built instant as its zero-padded components
separated by colons and a comma. -/
theorem formatSRTTime_mkUTC (day h m s ms : Nat) (hh : h < 24) (hm : m < 60)
    (hs : s < 60) (hms : ms < 1000) :
    formatSRTTime (mkUTC day h m s ms) =
      padStart 2 (toString h) ++ ":" ++ padStart 2 (toString m) ++ ":" ++
      padStart 2 (toString s) ++ "," ++ padStart 3 (toString ms) := by
  obtain ⟨e1, e2, e3, e4⟩ := getUTC_fields_mkUTC day h m s ms hh hm hs hms
  unfold formatSRTTime
  rw [e1, e2, e3, e4]

/-- The VTT formatter renders a built instant as its zero-padded components
separated by colons and a dot. -/
theorem formatVTTTime_mkUTC (day h m s ms : Nat) (hh : h < 24) (hm : m < 60)
    (hs : s < 60) (hms : ms < 1000) :
    formatVTTTime (mkUTC day h m s ms) =
      padStart 2 (toString h) ++ ":" ++ padStart 2 (toString m) ++ ":" ++
      padStart 2 (toString s) ++ "." ++ padStart 3 (toString ms) := by
  obtain ⟨e1, e2, e3, e4⟩ := getUTC_fields_mkUTC day h m s ms hh hm hs hms
  unfold formatVTTTime
  rw [e1, e2, e3, e4]

/-- A string with a nonempty right part of an append is nonempty. -/
theorem append_ne_empty_of_right {a b : String} (hb : b ≠ "") : a ++ b ≠ "" := by
  intro h
  apply hb
  have hd : a.data ++ b.data = ([] : List Char) := congrArg String.data h
  have hbd : b.data = [] := (List.append_eq_nil.mp hd).2
  exact congrArg String.mk hbd

/-- C6: for a recording with known start time, duration and non-empty
transcript text, the SRT cue renders its two timestamps as the start time
and start+duration, each formatted as zero-padded HH:MM:SS,mmm, and the VTT
cue renders the same two instants as zero-padded HH:MM:SS.mmm; for a single
such recording the SRT/VTT exports consist of exactly that cue (after the
WEBVTT header for VTT). -/
theorem c6_export_timestamps (r : Recording) (text : String) (idx : Nat)
    (d1 h1 m1 s1 x1 d2 h2 m2 s2 x2 : Nat)
    (hb1 : h1 < 24) (hb2 : m1 < 60) (hb3 : s1 < 60) (hb4 : x1 < 1000)
    (hc1 : h2 < 24) (hc2 : m2 < 60) (hc3 : s2 < 60) (hc4 : x2 < 1000)
    (hstart : r.startTime = mkUTC d1 h1 m1 s1 x1)
    (hend : r.startTime + (r.duration : Int) = mkUTC d2 h2 m2 s2 x2)
    (htext : text ≠ "") :
    srtCue idx r (some text) =
      toString (idx + 1) ++ "\n" ++
      (padStart 2 (toString h1) ++ ":" ++ padStart 2 (toString m1) ++ ":" ++
        padStart 2 (toString s1) ++ "," ++ padStart 3 (toString x1)) ++
      " --> " ++
      (padStart 2 (toString h2) ++ ":" ++ padStart 2 (toString m2) ++ ":" ++
        padStart 2 (toString s2) ++ "," ++ padStart 3 (toString x2)) ++
      "\n" ++ text ++ "\n\n" ∧
    vttCue r (some text) =
      (padStart 2 (toString h1) ++ ":" ++ padStart 2 (toString m1) ++ ":" ++
        padStart 2 (toString s1) ++ "." ++ padStart 3 (toString x1)) ++
      " --> " ++
      (padStart 2 (toString h2) ++ ":" ++ padStart 2 (toString m2) ++ ":" ++
        padStart 2 (toString s2) ++ "." ++ padStart 3 (toString x2)) ++
      "\n" ++ text ++ "\n\n" ∧
    srtExport [(r, some text)] = srtCue 0 r (some text) ∧
    vttExport [(r, some text)] = "WEBVTT\n\n" ++ vttCue r (some text) := by
  have f1 := formatSRTTime_mkUTC d1 h1 m1 s1 x1 hb1 hb2 hb3 hb4
  have f2 := formatSRTTime_mkUTC d2 h2 m2 s2 x2 hc1 hc2 hc3 hc4
  have g1 := formatVTTTime_mkUTC d1 h1 m1 s1 x1 hb1 hb2 hb3 hb4
  have g2 := formatVTTTime_mkUTC d2 h2 m2 s2 x2 hc1 hc2 hc3 hc4
  have hsrt_ne : srtCue 0 r (some text) ≠ "" := by
    show (if text = "" then "" else _) ≠ ""
    rw [if_neg htext]
    exact append_ne_empty_of_right (by decide)
  have hvtt_ne : vttCue r (some text) ≠ "" := by
    show (if text = "" then "" else _) ≠ ""
    rw [if_neg htext]
    exact append_ne_empty_of_right (by decide)
  refine ⟨?_, ?_, ?_, ?_⟩
  · show (if text = "" then "" else
      toString (idx + 1) ++ "\n" ++ formatSRTTime r.startTime ++ " --> " ++
        formatSRTTime (r.startTime + (r.duration : Int)) ++ "\n" ++
        text ++ "\n\n") = _
    rw [if_neg htext, hend, hstart, f1, f2]
  · show (if text = "" then "" else
      formatVTTTime r.startTime ++ " --> " ++
        formatVTTTime (r.startTime + (r.duration : Int)) ++ "\n" ++
        text ++ "\n\n") = _
    rw [if_neg htext, hend, hstart, g1, g2]
  · show String.join (List.filter (fun s => s != "")
      [srtCue 0 r (some text)]) = _
    rw [List.filter_cons]
    rw [if_pos (bne_iff_ne.mpr hsrt_ne)]
    rfl
  · show "WEBVTT\n\n" ++ String.join (List.filter (fun s => s != "")
      [vttCue r (some text)]) = _
    rw [List.filter_cons]
    rw [if_pos (bne_iff_ne.mpr hvtt_ne)]
    rfl

/-- C6 witness: a recording starting at 01:02:03.004 UTC with a 12-second
duration renders SRT timestamps 01:02:03,004 --> 01:02:15,004 and VTT
timestamps 01:02:03.004 --> 01:02:15.004. -/
theorem c6_export_timestamps_witness :
    (sampleRec.startTime = mkUTC 0 1 2 3 4) ∧
    (sampleRec.startTime + (sampleRec.duration : Int) = mkUTC 0 1 2 15 4) ∧
    srtCue 0 sampleRec (some "hello") =
      toString (0 + 1) ++ "\n" ++
      (padStart 2 (toString 1) ++ ":" ++ padStart 2 (toString 2) ++ ":" ++
        padStart 2 (toString 3) ++ "," ++ padStart 3 (toString 4)) ++
      " --> " ++
      (padStart 2 (toString 1) ++ ":" ++ padStart 2 (toString 2) ++ ":" ++
        padStart 2 (toString 15) ++ "," ++ padStart 3 (toString 4)) ++
      "\n" ++ "hello" ++ "\n\n" :=
  ⟨rfl, by decide,
    (c6_export_timestamps sampleRec "hello" 0 0 1 2 3 4 0 1 2 15 4
      (by decide) (by decide) (by decide) (by decide)
      (by decide) (by decide) (by decide) (by decide)
      rfl (by decide) (by decide)).1⟩

end OpenPlaud
